import Mathlib

/-!
Verification of `downloadgeo.py` (a CLI tool that batch-downloads GEO
datasets by GSE ID) against its natural-language specification.

Shallow embedding conventions:
  * Python strings are modelled as `List Char` (`PyStr`); Python slicing,
    `startswith`, `endswith`, `strip`, `upper`, `in` and `isdigit` are
    modelled by the executable helpers below.
  * The local filesystem is modelled as the list of paths that exist
    (`FS`); writing a file prepends its path.  Directory creation
    (`os.makedirs`) is not tracked, since the program only ever tests
    existence of files.
  * Network and external tools are oracles (`Web`, `Net`, `Tools`)
    supplied as parameters; each side-effecting function returns the new
    filesystem together with the list of observable events (`Ev`) it
    produced, in order.  Log lines are modelled as events.
-/

/-- Python `str` modelled as a list of characters. -/
abbrev PyStr := List Char

/-- The filesystem: the list of file paths that currently exist. -/
abbrev FS := List PyStr

/-- Python `s[n:]` (drop the first `n` characters). -/
def pyDrop (s : PyStr) (n : Nat) : PyStr := s.drop n

/-- Python `s[:-n]` (drop the last `n` characters; empty when `n ≥ len`). -/
def pyDropRight (s : PyStr) (n : Nat) : PyStr := s.take (s.length - n)

/-- Python `s.startswith(p)`. -/
def pyStartsWith (s p : PyStr) : Bool := decide (s.take p.length = p)

/-- Python `s.endswith(p)`. -/
def pyEndsWith (s p : PyStr) : Bool := decide (s.reverse.take p.length = p.reverse)

/-- Python `s.isdigit()`: non-empty and every character a digit. -/
def pyIsDigit (s : PyStr) : Bool := decide (s ≠ []) && s.all Char.isDigit

/-- Python `s.strip()` (ASCII whitespace approximation). -/
def pyStrip (s : PyStr) : PyStr :=
  ((s.dropWhile Char.isWhitespace).reverse.dropWhile Char.isWhitespace).reverse

/-- Python `s.upper()` (ASCII approximation). -/
def pyUpper (s : PyStr) : PyStr := s.map Char.toUpper

/-- Python `k in s`: substring containment. -/
def pyIn (k s : PyStr) : Bool := decide (k <:+: s)

/-- Python `os.path.exists(p)` over the modelled filesystem. -/
def pyExists (fs : FS) (p : PyStr) : Bool := decide (p ∈ fs)

/-- Python `os.path.join(d, f)` for a relative second component. -/
def pyJoin (d f : PyStr) : PyStr := d ++ "/".data ++ f

/-- Python `int(s)` on a digit string: its decimal value. -/
def decVal (s : PyStr) : Nat := s.foldl (fun n c => n * 10 + (c.toNat - 48)) 0

/-- `urllib.parse.urljoin(base, name)` as used by this program: the base is
always a directory URL ending in `/` and the name a relative file name, so
the join is concatenation. -/
def urljoin (base name : PyStr) : PyStr := base ++ name

/-- Source `get_geo_prefix` (downloadgeo.py lines 84-89; renamed here):
`geo_number = int(geo_id[3:])`; below 1000 the bucket is the literal
`"GSEnnn"`, otherwise `f"GSE{geo_id[3:-3]}nnn"`. -/
def geoBucket (geo_id : PyStr) : PyStr :=
  let geo_number := decVal (pyDrop geo_id 3)
  if geo_number < 1000 then "GSEnnn".data
  else "GSE".data ++ pyDropRight (pyDrop geo_id 3) 3 ++ "nnn".data

/-- Source validity test from `download_geo` (lines 193):
`geo_id.startswith("GSE") and geo_id[3:].isdigit()`. -/
def validGeoId (g : PyStr) : Bool :=
  pyStartsWith g "GSE".data && pyIsDigit (pyDrop g 3)

/-- Claim C1: for a valid accession ID `"GSE" ++ suffix` the derived
prefix bucket is the literal `"GSEnnn"` when the numeric suffix is below
1000, and otherwise `"GSE" ++ (suffix with its last three digits
stripped) ++ "nnn"`; the derivation is the pure function
`geoBucket` of the ID string. -/
theorem c1_prefix_bucket (suffix : PyStr) (h1 : suffix ≠ [])
    (h2 : suffix.all Char.isDigit = true) :
    geoBucket ("GSE".data ++ suffix)
      = if decVal suffix < 1000 then "GSEnnn".data
        else "GSE".data ++ pyDropRight suffix 3 ++ "nnn".data := rfl

/-- Witness for C1 at the spec's own example `GSE76275`
(suffix 76275 ≥ 1000, bucket `GSE76nnn`). -/
theorem c1_prefix_bucket_witness :
    ("76275".data ≠ [] ∧ "76275".data.all Char.isDigit = true)
    ∧ geoBucket ("GSE".data ++ "76275".data)
        = if decVal "76275".data < 1000 then "GSEnnn".data
          else "GSE".data ++ pyDropRight "76275".data 3 ++ "nnn".data :=
  ⟨⟨by decide, by decide⟩, c1_prefix_bucket "76275".data (by decide) (by decide)⟩

/-- A fetched listing page: HTTP status, whether `resp.text` is non-empty
(Python truthiness of the body), and the `href` attribute of each anchor
tag found by the HTML parser (`None` when the anchor has no href). -/
structure Page where
  status : Nat
  textNonEmpty : Bool
  anchors : List (Option PyStr)
deriving DecidableEq

/-- Oracle for listing-page requests; `none` models a raised
`requests` exception (timeout, connection error). -/
abbrev Web := PyStr → Option Page

/-- A streaming-GET response.  Only the status code is observable by any
property of interest; body bytes are abstracted away (the program never
inspects them, it only copies them to disk). -/
structure HTTPResp where
  status : Nat
deriving DecidableEq

/-- Oracle for streaming file requests; `none` models a raised exception. -/
abbrev Net := PyStr → Option HTTPResp

/-- Oracles for the external tools and libraries with filesystem effects:
whether `gzip` decompression of a given archive succeeds, whether
`tar -xf` on a given archive exits zero, which paths a successful
`tar -xf` creates (in the working directory of the process), and which
paths a recursive `wget` mirror of a URL creates, plus whether the
direct `wget` fetch of a URL succeeds. -/
structure Tools where
  gunzipOk : PyStr → Bool
  tarOk : PyStr → Bool
  tarOut : PyStr → List PyStr
  mirrorOut : PyStr → List PyStr
  wgetOk : PyStr → Bool

/-- Observable events, in program order: network requests, skips, writes,
logged failures, external-process invocations and per-ID milestones. -/
inductive Ev where
  | httpGet (url : PyStr)
  | skipExisting (fname : PyStr)
  | wroteFile (path : PyStr)
  | statusFail (fname : PyStr) (code : Nat)
  | netError (fname : PyStr)
  | skipExtract (path : PyStr)
  | gzExtract (path : PyStr)
  | gzExtractFail (path : PyStr)
  | tarRun (path : PyStr) (cwd : PyStr)
  | tarFail (path : PyStr)
  | invalidId (id : PyStr)
  | matrixExists (path : PyStr)
  | wgetFetch (url : PyStr) (outPath : PyStr)
  | wgetMirror (url : PyStr) (outdir : PyStr)
  | checkSuppl (url : PyStr)
  | checkMatrix (url : PyStr)
  | complete (id : PyStr)
deriving DecidableEq

/-- The anchor filter inside `download_file_list` (lines 102-106): keep
each `link.get('href')` that is truthy (present and non-empty), does not
end in `"/"` and does not start with `"http"`. -/
def hrefFilter (anchors : List (Option PyStr)) : List PyStr :=
  anchors.filterMap fun a =>
    match a with
    | none => none
    | some h =>
      if decide (h ≠ []) && !pyEndsWith h "/".data && !pyStartsWith h "http".data
      then some h else none

/-- Source `download_file_list` (lines 91-112): GET the listing URL; on an
exception, a non-200 status or an empty body return `none`; otherwise
filter the anchors and, when the keyword argument is truthy (present and
non-empty), keep only names containing it as a substring. -/
def download_file_list (web : Web) (url : PyStr) (keyword : Option PyStr) :
    Option (List PyStr) :=
  match web url with
  | none => none
  | some page =>
    if page.status ≠ 200 ∨ page.textNonEmpty = false then none
    else
      let files := hrefFilter page.anchors
      match keyword with
      | some k => if k ≠ [] then some (files.filter fun f => pyIn k f) else some files
      | none => some files

/-- Source `extract_file` (lines 114-135).  `cwd` is the working
directory of the process: the source passes no `cwd` argument to
`subprocess.run(["tar", "-xf", filepath])`, so the unpacking runs in the
inherited working directory (recorded in the `tarRun` event).  A failing
`gzip` decompression is modelled as raising before the output file is
created; a failing `tar` leaves the filesystem unchanged (partial output
of the external tool itself is abstracted away). -/
def extract_file (tools : Tools) (cwd filepath : PyStr) (fs : FS) : FS × List Ev :=
  if pyEndsWith filepath ".gz".data && !pyEndsWith filepath ".tar.gz".data then
    let output_file := pyDropRight filepath 3
    if pyExists fs output_file then (fs, [Ev.skipExtract output_file])
    else if tools.gunzipOk filepath then (output_file :: fs, [Ev.gzExtract filepath])
    else (fs, [Ev.gzExtractFail filepath])
  else if pyEndsWith filepath ".tar".data then
    if tools.tarOk filepath then (tools.tarOut filepath ++ fs, [Ev.tarRun filepath cwd])
    else (fs, [Ev.tarRun filepath cwd, Ev.tarFail filepath])
  else (fs, [])

/-- The body of the per-file loop of `download_files_with_requests`
(lines 141-162): skip when the local path exists, otherwise stream the
URL, writing the body only on status 200; then extract when requested. -/
def downloadOne (net : Net) (tools : Tools) (cwd base_url outdir : PyStr)
    (extract : Bool) (fs : FS) (fname : PyStr) : FS × List Ev :=
  let file_url := urljoin base_url fname
  let out_path := pyJoin outdir fname
  let step :=
    if pyExists fs out_path then (fs, [Ev.skipExisting fname])
    else
      match net file_url with
      | none => (fs, [Ev.httpGet file_url, Ev.netError fname])
      | some r =>
        if r.status = 200 then (out_path :: fs, [Ev.httpGet file_url, Ev.wroteFile out_path])
        else (fs, [Ev.httpGet file_url, Ev.statusFail fname r.status])
  if extract then
    let ex := extract_file tools cwd (pyJoin outdir fname) step.1
    (ex.1, step.2 ++ ex.2)
  else step

/-- Source `download_files_with_requests` (lines 137-162): process the
listed file names in order (the `os.makedirs` call is not tracked, the
model records files only). -/
def download_files_with_requests (net : Net) (tools : Tools)
    (cwd base_url : PyStr) (files : List PyStr) (outdir : PyStr)
    (extract : Bool) (fs : FS) : FS × List Ev :=
  match files with
  | [] => (fs, [])
  | fname :: rest =>
    let step := downloadOne net tools cwd base_url outdir extract fs fname
    let next := download_files_with_requests net tools cwd base_url rest outdir extract step.1
    (next.1, step.2 ++ next.2)

/-- Left fold of `extract_file` over a list of paths, used by the mirror
fallback's post-extraction walk. -/
def extractAll (tools : Tools) (cwd : PyStr) (targets : List PyStr)
    (fs : FS) : FS × List Ev :=
  match targets with
  | [] => (fs, [])
  | p :: rest =>
    let step := extract_file tools cwd p fs
    let next := extractAll tools cwd rest step.1
    (next.1, step.2 ++ next.2)

/-- Source `fallback_with_wget` (lines 164-176): recursive `wget` mirror
of the URL into `outdir`, then, when extraction is requested, walk the
output directory and extract every `.tar`/`.gz` file.  The `os.walk`
enumeration is modelled as the filesystem paths under `outdir`, in
filesystem-list order. -/
def fallback_with_wget (tools : Tools) (cwd url outdir : PyStr)
    (extract : Bool) (fs : FS) : FS × List Ev :=
  let fs1 := tools.mirrorOut url ++ fs
  if extract then
    let targets := fs1.filter fun p =>
      pyStartsWith p (outdir ++ "/".data) &&
      (pyEndsWith p ".tar".data || pyEndsWith p ".gz".data)
    let ex := extractAll tools cwd targets fs1
    (ex.1, Ev.wgetMirror url outdir :: ex.2)
  else (fs1, [Ev.wgetMirror url outdir])

/-- The base URL of the GEO series tree (string literal in the source). -/
def seriesBase : PyStr := "https://ftp.ncbi.nlm.nih.gov/geo/series/".data

/-- `main_url` built in `download_geo` (line 198). -/
def mainUrl (gpfx gid : PyStr) : PyStr := seriesBase ++ gpfx ++ "/".data ++ gid ++ "/".data

/-- `suppl_url` (line 199). -/
def supplUrl (gpfx gid : PyStr) : PyStr := mainUrl gpfx gid ++ "suppl/".data

/-- `matrix_url` (line 200). -/
def matrixUrl (gpfx gid : PyStr) : PyStr := mainUrl gpfx gid ++ "matrix/".data

/-- `fallback_url` built in `fallback_download_matrix` (line 181). -/
def fallbackUrl (gpfx gid : PyStr) : PyStr :=
  seriesBase ++ gpfx ++ "/".data ++ gid ++ "/matrix/".data
    ++ gid ++ "_series_matrix.txt.gz".data

/-- The file name of the well-known series-matrix archive for an ID. -/
def matrixName (gid : PyStr) : PyStr := gid ++ "_series_matrix.txt.gz".data

/-- Source `fallback_download_matrix` (lines 178-189): build the single
well-known matrix URL from the ID and its bucket; when the target path
already exists only log, otherwise fetch it with `wget -nc -O`; then
extract when requested (unconditionally, as in the source). -/
def fallback_download_matrix (tools : Tools) (cwd geo_id geo_prefix outdir : PyStr)
    (extract : Bool) (fs : FS) : FS × List Ev :=
  let out_path := pyJoin outdir (matrixName geo_id)
  let step :=
    if pyExists fs out_path then (fs, [Ev.matrixExists out_path])
    else if tools.wgetOk (fallbackUrl geo_prefix geo_id) then
      (out_path :: fs, [Ev.wgetFetch (fallbackUrl geo_prefix geo_id) out_path])
    else (fs, [Ev.wgetFetch (fallbackUrl geo_prefix geo_id) out_path])
  if extract then
    let ex := extract_file tools cwd out_path step.1
    (ex.1, step.2 ++ ex.2)
  else step

/-- Source `download_geo` (lines 191-219): normalize and validate the ID;
on failure log and return.  Otherwise, when raw files are requested,
fetch the supplementary listing and either stream the listed files or
mirror-fallback; when matrix files are requested, fetch the matrix
listing filtered by `"series_matrix"` and either stream the listed files
or direct-fallback; finally log completion. -/
def download_geo (web : Web) (net : Net) (tools : Tools) (cwd : PyStr)
    (geo_id0 : PyStr) (download_raw download_matrix extract : Bool)
    (fs : FS) : FS × List Ev :=
  let geo_id := pyUpper (pyStrip geo_id0)
  if !validGeoId geo_id then (fs, [Ev.invalidId geo_id])
  else
    let geo_prefix := geoBucket geo_id
    let rawPhase :=
      if download_raw then
        let r :=
          match download_file_list web (supplUrl geo_prefix geo_id) none with
          | some (f :: fl) =>
            download_files_with_requests net tools cwd (supplUrl geo_prefix geo_id)
              (f :: fl) geo_id extract fs
          | _ => fallback_with_wget tools cwd (supplUrl geo_prefix geo_id) geo_id extract fs
        (r.1, Ev.checkSuppl (supplUrl geo_prefix geo_id) :: r.2)
      else (fs, [])
    let matrixPhase :=
      if download_matrix then
        let r :=
          match download_file_list web (matrixUrl geo_prefix geo_id)
              (some "series_matrix".data) with
          | some (f :: fl) =>
            download_files_with_requests net tools cwd (matrixUrl geo_prefix geo_id)
              (f :: fl) geo_id extract rawPhase.1
          | _ => fallback_download_matrix tools cwd geo_id geo_prefix geo_id
                   extract rawPhase.1
        (r.1, Ev.checkMatrix (matrixUrl geo_prefix geo_id) :: r.2)
      else (rawPhase.1, [])
    (matrixPhase.1, rawPhase.2 ++ matrixPhase.2 ++ [Ev.complete geo_id])

/-- `download_raw` flag computation in `__main__` (line 237). -/
def downloadRawFlag (argv : List PyStr) : Bool :=
  argv.contains "--raw".data
    || (!argv.contains "--matrix".data && !argv.contains "--raw".data)

/-- `download_matrix` flag computation in `__main__` (line 238). -/
def downloadMatrixFlag (argv : List PyStr) : Bool :=
  argv.contains "--matrix".data
    || (!argv.contains "--matrix".data && !argv.contains "--raw".data)

/-- `pyEndsWith` unfolded to the underlying list equation. -/
theorem pyEndsWith_iff (p s : PyStr) :
    pyEndsWith p s = true ↔ p.reverse.take s.length = s.reverse := by
  simp [pyEndsWith]

/-- A string equals its part before a suffix followed by that suffix. -/
theorem endsWith_split (p s : PyStr) (h : pyEndsWith p s = true) :
    pyDropRight p s.length ++ s = p := by
  have h1 : p.reverse.take s.length = s.reverse := (pyEndsWith_iff p s).mp h
  have h2 : (p.drop (p.length - s.length)).reverse = s.reverse := by
    rw [← List.take_reverse]
    exact h1
  have h3 : p.drop (p.length - s.length) = s := by
    have h4 := congrArg List.reverse h2
    simpa using h4
  calc pyDropRight p s.length ++ s
      = p.take (p.length - s.length) ++ p.drop (p.length - s.length) := by
        rw [h3]
        rfl
    _ = p := List.take_append_drop _ _

/-- Two suffix tests of the same string agree on their overlap. -/
theorem endsWith_agree (p s t : PyStr) (hs : pyEndsWith p s = true)
    (ht : pyEndsWith p t = true) (hl : s.length ≤ t.length) :
    t.reverse.take s.length = s.reverse := by
  have h1 := (pyEndsWith_iff p s).mp hs
  have h2 := (pyEndsWith_iff p t).mp ht
  have h3 := congrArg (List.take s.length) h2
  rw [List.take_take, Nat.min_eq_left hl] at h3
  rw [← h3, h1]

/-- Ending in a longer suffix forces ending in a compatible shorter one. -/
theorem endsWith_true_of (p s t : PyStr) (ht : pyEndsWith p t = true)
    (hl : s.length ≤ t.length) (hagree : t.reverse.take s.length = s.reverse) :
    pyEndsWith p s = true := by
  have h2 := (pyEndsWith_iff p t).mp ht
  have h3 := congrArg (List.take s.length) h2
  rw [List.take_take, Nat.min_eq_left hl] at h3
  exact (pyEndsWith_iff p s).mpr (by rw [h3, hagree])

/-- Ending in a longer suffix excludes any clashing shorter suffix. -/
theorem endsWith_false_of (p s t : PyStr) (ht : pyEndsWith p t = true)
    (hl : s.length ≤ t.length) (hdis : t.reverse.take s.length ≠ s.reverse) :
    pyEndsWith p s = false := by
  refine Bool.eq_false_iff.mpr fun hs => hdis (endsWith_agree p s t hs ht hl)

/-- Claim C10: on a path ending in `.tar.gz`, and on any path ending in
neither `.gz` nor `.tar`, `extract_file` is a no-op: no event is emitted
(no decompression, no external process, no error report) and the
filesystem is unchanged. -/
theorem c10_extract_noop (tools : Tools) (cwd p : PyStr) (fs : FS)
    (h : pyEndsWith p ".tar.gz".data = true
       ∨ (pyEndsWith p ".gz".data = false ∧ pyEndsWith p ".tar".data = false)) :
    extract_file tools cwd p fs = (fs, []) := by
  rcases h with h | ⟨h1, h2⟩
  · have hg : pyEndsWith p ".gz".data = true :=
      endsWith_true_of p ".gz".data ".tar.gz".data h (by decide) (by decide)
    have ht : pyEndsWith p ".tar".data = false :=
      endsWith_false_of p ".tar".data ".tar.gz".data h (by decide) (by decide)
    simp [extract_file, hg, h, ht]
  · simp [extract_file, h1, h2]

/-- Fixed interpretation of every external-tool oracle, for witnesses. -/
def toolsAny : Tools where
  gunzipOk := fun _ => true
  tarOk := fun _ => true
  tarOut := fun _ => []
  mirrorOut := fun _ => []
  wgetOk := fun _ => true

/-- Witness for C10 at the path `a.tar.gz`. -/
theorem c10_extract_noop_witness :
    pyEndsWith "a.tar.gz".data ".tar.gz".data = true
    ∧ extract_file toolsAny ".".data "a.tar.gz".data [] = ([], []) :=
  ⟨by decide, c10_extract_noop toolsAny ".".data "a.tar.gz".data [] (Or.inl (by decide))⟩

/-- Claim C5: on a path ending in `.gz` but not `.tar.gz`, the extractor
targets exactly the sibling path obtained by removing the `.gz` suffix
(first conjunct); when that sibling already exists it only logs a skip
and changes nothing (second conjunct); otherwise a successful
decompression creates exactly the sibling (third conjunct). -/
theorem c5_gz_extract (tools : Tools) (cwd p : PyStr) (fs : FS)
    (hgz : pyEndsWith p ".gz".data = true)
    (hnt : pyEndsWith p ".tar.gz".data = false) :
    pyDropRight p 3 ++ ".gz".data = p
    ∧ (pyExists fs (pyDropRight p 3) = true →
        extract_file tools cwd p fs = (fs, [Ev.skipExtract (pyDropRight p 3)]))
    ∧ (pyExists fs (pyDropRight p 3) = false → tools.gunzipOk p = true →
        extract_file tools cwd p fs = (pyDropRight p 3 :: fs, [Ev.gzExtract p])) := by
  refine ⟨endsWith_split p ".gz".data hgz, ?_, ?_⟩
  · intro hex
    simp [extract_file, hgz, hnt, hex]
  · intro hex hok
    simp [extract_file, hgz, hnt, hex, hok]

/-- Witness for C5 at the path `GSE1/m.txt.gz` over an empty directory. -/
theorem c5_gz_extract_witness :
    (pyEndsWith "GSE1/m.txt.gz".data ".gz".data = true
     ∧ pyEndsWith "GSE1/m.txt.gz".data ".tar.gz".data = false)
    ∧ (pyDropRight "GSE1/m.txt.gz".data 3 ++ ".gz".data = "GSE1/m.txt.gz".data
       ∧ (pyExists [] (pyDropRight "GSE1/m.txt.gz".data 3) = true →
           extract_file toolsAny ".".data "GSE1/m.txt.gz".data []
             = ([], [Ev.skipExtract (pyDropRight "GSE1/m.txt.gz".data 3)]))
       ∧ (pyExists [] (pyDropRight "GSE1/m.txt.gz".data 3) = false →
           toolsAny.gunzipOk "GSE1/m.txt.gz".data = true →
           extract_file toolsAny ".".data "GSE1/m.txt.gz".data []
             = (pyDropRight "GSE1/m.txt.gz".data 3 :: [], [Ev.gzExtract "GSE1/m.txt.gz".data]))) :=
  ⟨⟨by decide, by decide⟩,
   c5_gz_extract toolsAny ".".data "GSE1/m.txt.gz".data [] (by decide) (by decide)⟩

/-- Modelled from the spec: the "archive's own directory" of a path, i.e.
`os.path.dirname` — everything before the last `/` (empty when there is
no slash).  The source never computes this; it is used only to state
claim C6. -/
def dirName (p : PyStr) : PyStr :=
  ((p.reverse.dropWhile fun c => c != '/').drop 1).reverse

/-- Counterexample to C6 as stated: extracting `GSE1/a.tar` runs the
external `tar` with the working directory inherited from the process
(here `.`), which is not the archive's own directory `GSE1` — the source
passes no `cwd` to `subprocess.run`, so the archive is not unpacked "into
the archive's own directory". -/
theorem c6_counterexample :
    (extract_file toolsAny ".".data "GSE1/a.tar".data []).2
      = [Ev.tarRun "GSE1/a.tar".data ".".data]
    ∧ dirName "GSE1/a.tar".data = "GSE1".data
    ∧ (".".data : PyStr) ≠ "GSE1".data := by decide

/-- Claim C6 (amended): on a path ending in `.tar` the extractor invokes
the external archive utility in the process's current working directory;
a zero exit adds the utility's output, a non-zero exit is logged, leaves
the archive un-extracted, and execution continues (the function returns
normally in both cases). -/
theorem c6_tar_amended (tools : Tools) (cwd p : PyStr) (fs : FS)
    (h : pyEndsWith p ".tar".data = true) :
    (tools.tarOk p = true →
      extract_file tools cwd p fs = (tools.tarOut p ++ fs, [Ev.tarRun p cwd]))
    ∧ (tools.tarOk p = false →
      extract_file tools cwd p fs = (fs, [Ev.tarRun p cwd, Ev.tarFail p])) := by
  have hg : pyEndsWith p ".gz".data = false :=
    endsWith_false_of p ".gz".data ".tar".data h (by decide) (by decide)
  constructor
  · intro hok
    simp [extract_file, hg, h, hok]
  · intro hfail
    simp [extract_file, hg, h, hfail]

/-- Witness for C6 (amended) at the path `GSE1/a.tar`. -/
theorem c6_tar_amended_witness :
    pyEndsWith "GSE1/a.tar".data ".tar".data = true
    ∧ ((toolsAny.tarOk "GSE1/a.tar".data = true →
        extract_file toolsAny ".".data "GSE1/a.tar".data []
          = (toolsAny.tarOut "GSE1/a.tar".data ++ [], [Ev.tarRun "GSE1/a.tar".data ".".data]))
       ∧ (toolsAny.tarOk "GSE1/a.tar".data = false →
        extract_file toolsAny ".".data "GSE1/a.tar".data []
          = ([], [Ev.tarRun "GSE1/a.tar".data ".".data, Ev.tarFail "GSE1/a.tar".data]))) :=
  ⟨by decide, c6_tar_amended toolsAny ".".data "GSE1/a.tar".data [] (by decide)⟩

/-- Modelled from the spec: an href "starting with a scheme (absolute
link)" — a URI scheme prefix in the RFC 3986 sense: a letter followed by
letters, digits, `+`, `-` or `.`, terminated by `:`.  The source itself
tests `startswith("http")` instead; this definition exists only to state
claim C2 as written. -/
def startsWithScheme (s : PyStr) : Bool :=
  match s with
  | [] => false
  | c :: _ =>
    c.isAlpha &&
      (let pre := s.takeWhile fun d => d.isAlphanum || d = '+' || d = '-' || d = '.'
       decide ((s.drop pre.length).take 1 = [':']))

/-- Modelled from the spec: the listing filter as claim C2 states it —
keep every anchor href value that does not end in `/` and does not start
with a scheme. -/
def spec_anchor_filter (anchors : List (Option PyStr)) : List PyStr :=
  anchors.filterMap fun a =>
    match a with
    | none => none
    | some h =>
      if !pyEndsWith h "/".data && !startsWithScheme h then some h else none

/-- The listing page used in the counterexample to C2: one anchor whose
href is the relative file name `httpdata.txt`. -/
def cexPage : Page where
  status := 200
  textNonEmpty := true
  anchors := [some "httpdata.txt".data]

/-- The web oracle serving `cexPage` for every URL. -/
def cexWeb : Web := fun _ => some cexPage

/-- Counterexample to C2 as stated: the relative file name
`httpdata.txt` neither ends in `/` nor starts with a scheme (it contains
no `:`), so the claim's filter keeps it, yet the fetcher drops it because
the source tests `startswith("http")` — the result is not the claimed
set of names. -/
theorem c2_counterexample :
    download_file_list cexWeb "u".data none = some []
    ∧ spec_anchor_filter cexPage.anchors = ["httpdata.txt".data]
    ∧ download_file_list cexWeb "u".data none
        ≠ some (spec_anchor_filter cexPage.anchors) := by decide

/-- Claim C2 (amended): on a successfully fetched non-empty listing page
the fetcher returns exactly the non-empty anchor href values that do not
end in `/` and do not start with the literal prefix `"http"`; a supplied
non-empty keyword further restricts the result to exactly the names
containing it as a substring. -/
theorem c2_listing_filter_amended (web : Web) (url : PyStr) (page : Page) (k : PyStr)
    (hw : web url = some page) (hs : page.status = 200)
    (ht : page.textNonEmpty = true) (hk : k ≠ []) :
    download_file_list web url none = some (hrefFilter page.anchors)
    ∧ download_file_list web url (some k)
        = some ((hrefFilter page.anchors).filter fun f => pyIn k f)
    ∧ (∀ f, f ∈ hrefFilter page.anchors
          ↔ some f ∈ page.anchors ∧ f ≠ []
            ∧ pyEndsWith f "/".data = false ∧ pyStartsWith f "http".data = false)
    ∧ (∀ f, f ∈ ((hrefFilter page.anchors).filter fun f => pyIn k f)
          ↔ f ∈ hrefFilter page.anchors ∧ pyIn k f = true) := by
  refine ⟨?_, ?_, ?_, ?_⟩
  · simp [download_file_list, hw, hs, ht]
  · simp [download_file_list, hw, hs, ht, hk]
  · intro f
    constructor
    · intro hf
      obtain ⟨a, ha, hg⟩ := List.mem_filterMap.mp hf
      cases a with
      | none => simp at hg
      | some h =>
        have hg' : (if (decide (h ≠ []) && !pyEndsWith h "/".data
            && !pyStartsWith h "http".data) = true then some h else none) = some f := hg
        by_cases hc : (decide (h ≠ []) && !pyEndsWith h "/".data
            && !pyStartsWith h "http".data) = true
        · rw [if_pos hc] at hg'
          cases hg'
          simp only [Bool.and_eq_true, Bool.not_eq_true', decide_eq_true_eq] at hc
          exact ⟨ha, hc.1.1, hc.1.2, hc.2⟩
        · rw [if_neg hc] at hg'
          exact absurd hg' (by simp)
    · intro ⟨hmem, hne, hslash, hhttp⟩
      exact List.mem_filterMap.mpr ⟨some f, hmem, by simp [hne, hslash, hhttp]⟩
  · intro f
    simp [List.mem_filter]

/-- The listing page used by the C2 witness: a matrix archive, a
sub-directory, an absolute link, a bare anchor and a plain file. -/
def witPage : Page where
  status := 200
  textNonEmpty := true
  anchors := [some "GSE1_series_matrix.txt.gz".data, some "suppl/".data,
              some "http://x/y.txt".data, none, some "readme.txt".data]

/-- The web oracle serving `witPage` for every URL. -/
def witWeb : Web := fun _ => some witPage

/-- Witness for C2 (amended) on `witPage` with keyword `series_matrix`:
the plain filter keeps the two relative files, and the keyword filter
keeps exactly the matrix archive. -/
theorem c2_listing_filter_amended_witness :
    (witWeb "u".data = some witPage ∧ witPage.status = 200
     ∧ witPage.textNonEmpty = true ∧ "series_matrix".data ≠ [])
    ∧ download_file_list witWeb "u".data none
        = some ["GSE1_series_matrix.txt.gz".data, "readme.txt".data]
    ∧ download_file_list witWeb "u".data (some "series_matrix".data)
        = some ["GSE1_series_matrix.txt.gz".data] :=
  ⟨⟨rfl, rfl, rfl, by decide⟩,
   by
    have h := c2_listing_filter_amended witWeb "u".data witPage "series_matrix".data
      rfl rfl rfl (by decide)
    exact ⟨by rw [h.1]; decide, by rw [h.2.1]; decide⟩⟩

/-- Claim C4: an input whose trimmed upper-cased form is not `GSE`
followed by at least one digit is rejected: the orchestrator only logs
the invalid-ID error, issues no network request of any kind, leaves the
filesystem unchanged, and returns normally (the batch continues). -/
theorem c4_invalid_id (web : Web) (net : Net) (tools : Tools) (cwd id0 : PyStr)
    (draw dmat ext : Bool) (fs : FS)
    (h : validGeoId (pyUpper (pyStrip id0)) = false) :
    download_geo web net tools cwd id0 draw dmat ext fs
      = (fs, [Ev.invalidId (pyUpper (pyStrip id0))])
    ∧ ∀ e ∈ (download_geo web net tools cwd id0 draw dmat ext fs).2,
        e = Ev.invalidId (pyUpper (pyStrip id0)) := by
  have h1 : download_geo web net tools cwd id0 draw dmat ext fs
      = (fs, [Ev.invalidId (pyUpper (pyStrip id0))]) := by
    simp [download_geo, h]
  refine ⟨h1, ?_⟩
  rw [h1]
  simp

/-- Witness for C4 at the malformed input `gse12x7`. -/
theorem c4_invalid_id_witness :
    validGeoId (pyUpper (pyStrip "gse12x7".data)) = false
    ∧ download_geo cexWeb (fun _ => none) toolsAny ".".data "gse12x7".data
        true true false []
      = ([], [Ev.invalidId (pyUpper (pyStrip "gse12x7".data))]) :=
  ⟨by decide,
   (c4_invalid_id cexWeb (fun _ => none) toolsAny ".".data "gse12x7".data
     true true false [] (by decide)).1⟩

/-- Claim C9: when the streaming GET for a missing file answers with a
status other than 200, the downloader creates nothing at the file's
output path: the filesystem is returned unchanged and the only events
are the request and the logged status failure (the body is opened for
writing only after the 200 check). -/
theorem c9_non200_no_file (net : Net) (tools : Tools)
    (cwd base outdir fname : PyStr) (fs : FS) (r : HTTPResp)
    (hne : pyExists fs (pyJoin outdir fname) = false)
    (hr : net (urljoin base fname) = some r)
    (hs : r.status ≠ 200) :
    downloadOne net tools cwd base outdir false fs fname
      = (fs, [Ev.httpGet (urljoin base fname), Ev.statusFail fname r.status])
    ∧ ∀ p, Ev.wroteFile p ∉ (downloadOne net tools cwd base outdir false fs fname).2 := by
  have h1 : downloadOne net tools cwd base outdir false fs fname
      = (fs, [Ev.httpGet (urljoin base fname), Ev.statusFail fname r.status]) := by
    simp [downloadOne, hne, hr, hs]
  refine ⟨h1, ?_⟩
  rw [h1]
  simp

/-- The streaming oracle answering 404 everywhere, for the C9 witness. -/
def net404 : Net := fun _ => some ⟨404⟩

/-- Witness for C9: a 404 on `data.txt` leaves the directory empty. -/
theorem c9_non200_no_file_witness :
    (pyExists [] (pyJoin "GSE1".data "data.txt".data) = false
     ∧ net404 (urljoin "b/".data "data.txt".data) = some ⟨404⟩ ∧ (404 : Nat) ≠ 200)
    ∧ downloadOne net404 toolsAny ".".data "b/".data "GSE1".data false [] "data.txt".data
        = ([], [Ev.httpGet (urljoin "b/".data "data.txt".data),
                Ev.statusFail "data.txt".data 404]) :=
  ⟨⟨by decide, rfl, by decide⟩,
   (c9_non200_no_file net404 toolsAny ".".data "b/".data "GSE1".data "data.txt".data
     [] ⟨404⟩ (by decide) rfl (by decide)).1⟩

/-- `extract_file` only ever adds files: the new filesystem is the old
one with some prefix of new paths. -/
theorem extract_file_extends (tools : Tools) (cwd p : PyStr) (fs : FS) :
    ∃ pre, (extract_file tools cwd p fs).1 = pre ++ fs := by
  simp only [extract_file]
  split_ifs
  exacts [⟨[], rfl⟩, ⟨[pyDropRight p 3], rfl⟩, ⟨[], rfl⟩,
    ⟨tools.tarOut p, rfl⟩, ⟨[], rfl⟩, ⟨[], rfl⟩]

/-- `extract_file` never issues an HTTP request. -/
theorem extract_file_no_get (tools : Tools) (cwd p : PyStr) (fs : FS) (u : PyStr) :
    Ev.httpGet u ∉ (extract_file tools cwd p fs).2 := by
  simp only [extract_file]
  split_ifs <;> simp

/-- Existence of a path survives adding files. -/
theorem pyExists_mono (pre fs : FS) (p : PyStr) (h : pyExists fs p = true) :
    pyExists (pre ++ fs) p = true := by
  simp [pyExists] at h ⊢
  exact Or.inr h

/-- An existing target short-circuits the download step (no extraction). -/
theorem downloadOne_exists_false (net : Net) (tools : Tools)
    (cwd base outdir : PyStr) (fs : FS) (fname : PyStr)
    (h : pyExists fs (pyJoin outdir fname) = true) :
    downloadOne net tools cwd base outdir false fs fname
      = (fs, [Ev.skipExisting fname]) := by
  simp [downloadOne, h]

/-- An existing target short-circuits the download step (extraction on:
the skip is followed by the extractor's own effect on the existing file). -/
theorem downloadOne_exists_true (net : Net) (tools : Tools)
    (cwd base outdir : PyStr) (fs : FS) (fname : PyStr)
    (h : pyExists fs (pyJoin outdir fname) = true) :
    downloadOne net tools cwd base outdir true fs fname
      = ((extract_file tools cwd (pyJoin outdir fname) fs).1,
         Ev.skipExisting fname :: (extract_file tools cwd (pyJoin outdir fname) fs).2) := by
  simp [downloadOne, h]

/-- When every listed file already exists locally, the whole run issues
no HTTP request, whatever the extraction flag. -/
theorem dl_no_get_of_exists (net : Net) (tools : Tools)
    (cwd base outdir : PyStr) (ext : Bool) :
    ∀ (files : List PyStr) (fs : FS),
      (∀ f ∈ files, pyExists fs (pyJoin outdir f) = true) →
      ∀ u, Ev.httpGet u ∉
        (download_files_with_requests net tools cwd base files outdir ext fs).2 := by
  intro files
  induction files with
  | nil =>
    intro fs _ u
    simp [download_files_with_requests]
  | cons fname rest ih =>
    intro fs hall u
    have hhead : pyExists fs (pyJoin outdir fname) = true := hall fname (by simp)
    have hrest : ∀ f ∈ rest, pyExists fs (pyJoin outdir f) = true :=
      fun f hf => hall f (List.mem_cons_of_mem fname hf)
    cases ext with
    | false =>
      simp only [download_files_with_requests, downloadOne_exists_false net tools cwd base outdir fs fname hhead]
      intro hmem
      rw [List.mem_append] at hmem
      rcases hmem with hmem | hmem
      · simp at hmem
      · exact ih fs hrest u hmem
    | true =>
      simp only [download_files_with_requests, downloadOne_exists_true net tools cwd base outdir fs fname hhead]
      intro hmem
      rw [List.mem_append] at hmem
      rcases hmem with hmem | hmem
      · rcases List.mem_cons.mp hmem with hmem | hmem
        · exact Ev.noConfusion hmem
        · exact extract_file_no_get tools cwd (pyJoin outdir fname) fs u hmem
      · obtain ⟨pre, hpre⟩ := extract_file_extends tools cwd (pyJoin outdir fname) fs
        have hrest' : ∀ f ∈ rest,
            pyExists (extract_file tools cwd (pyJoin outdir fname) fs).1 (pyJoin outdir f) = true := by
          intro f hf
          rw [hpre]
          exact pyExists_mono pre fs _ (hrest f hf)
        exact ih _ hrest' u hmem

/-- When every listed file already exists locally and extraction is off,
the run is exactly the sequence of skip logs over an unchanged
filesystem. -/
theorem dl_skip_eq_of_exists (net : Net) (tools : Tools)
    (cwd base outdir : PyStr) :
    ∀ (files : List PyStr) (fs : FS),
      (∀ f ∈ files, pyExists fs (pyJoin outdir f) = true) →
      download_files_with_requests net tools cwd base files outdir false fs
        = (fs, files.map Ev.skipExisting) := by
  intro files
  induction files with
  | nil =>
    intro fs _
    simp [download_files_with_requests]
  | cons fname rest ih =>
    intro fs hall
    have hhead : pyExists fs (pyJoin outdir fname) = true := hall fname (by simp)
    have hrest : ∀ f ∈ rest, pyExists fs (pyJoin outdir f) = true :=
      fun f hf => hall f (List.mem_cons_of_mem fname hf)
    simp only [download_files_with_requests, downloadOne_exists_false net tools cwd base outdir fs fname hhead,
      ih fs hrest]
    simp

/-- Claim C3: a file whose local path under the output directory already
exists is only skip-logged — no HTTP request, no re-fetch, no integrity
check (first conjunct, per file); consequently, when every listed file
already exists, the whole run issues no HTTP request at all (whatever
the extraction flag) and — with extraction off — is exactly one skip log
per file over an unchanged directory: re-running the same download over
an unchanged directory re-downloads nothing. -/
theorem c3_idempotent_skip (net : Net) (tools : Tools)
    (cwd base outdir : PyStr) (ext : Bool) (files : List PyStr) (fs : FS)
    (h : ∀ f ∈ files, pyExists fs (pyJoin outdir f) = true) :
    (∀ fname fs', pyExists fs' (pyJoin outdir fname) = true →
        downloadOne net tools cwd base outdir false fs' fname
          = (fs', [Ev.skipExisting fname])
        ∧ ∀ u, Ev.httpGet u ∉ (downloadOne net tools cwd base outdir ext fs' fname).2)
    ∧ (∀ u, Ev.httpGet u ∉
        (download_files_with_requests net tools cwd base files outdir ext fs).2)
    ∧ download_files_with_requests net tools cwd base files outdir false fs
        = (fs, files.map Ev.skipExisting) := by
  refine ⟨?_, dl_no_get_of_exists net tools cwd base outdir ext files fs h,
    dl_skip_eq_of_exists net tools cwd base outdir files fs h⟩
  intro fname fs' hex
  refine ⟨downloadOne_exists_false net tools cwd base outdir fs' fname hex, ?_⟩
  intro u
  cases ext with
  | false =>
    rw [downloadOne_exists_false net tools cwd base outdir fs' fname hex]
    simp
  | true =>
    rw [downloadOne_exists_true net tools cwd base outdir fs' fname hex]
    intro hmem
    rcases List.mem_cons.mp hmem with hmem | hmem
    · exact Ev.noConfusion hmem
    · exact extract_file_no_get tools cwd (pyJoin outdir fname) fs' u hmem

/-- File list for the C3 witness. -/
def witFiles : List PyStr := ["a.txt".data, "m.txt.gz".data]

/-- Pre-populated output directory for the C3 witness. -/
def witFS : FS := ["GSE1/a.txt".data, "GSE1/m.txt.gz".data]

/-- Witness for C3: both listed files already exist, so the run is two
skip logs and the filesystem is untouched. -/
theorem c3_idempotent_skip_witness :
    (∀ f ∈ witFiles, pyExists witFS (pyJoin "GSE1".data f) = true)
    ∧ download_files_with_requests net404 toolsAny ".".data "b/".data
        witFiles "GSE1".data false witFS
      = (witFS, witFiles.map Ev.skipExisting) :=
  ⟨by decide,
   (c3_idempotent_skip net404 toolsAny ".".data "b/".data "GSE1".data false
     witFiles witFS (by decide)).2.2⟩

/-- Claim C7: when the matrix listing is unavailable (`none`) or empty,
the orchestrator deterministically runs the direct matrix fallback
(first conjunct: the whole matrix phase is exactly the fallback's
effect); the fallback targets the single well-known URL built from the
ID and its bucket, fetching only when the local target is missing
(second and third conjuncts), and applies extraction exactly when
requested (fourth conjunct). -/
theorem c7_matrix_fallback (web : Web) (net : Net) (tools : Tools)
    (cwd id0 : PyStr) (ext : Bool) (fs : FS) (gid gpfx : PyStr)
    (hgid : gid = pyUpper (pyStrip id0))
    (hpfx : gpfx = geoBucket gid)
    (hv : validGeoId gid = true)
    (hempty : download_file_list web (matrixUrl gpfx gid) (some "series_matrix".data) = none
            ∨ download_file_list web (matrixUrl gpfx gid) (some "series_matrix".data) = some []) :
    download_geo web net tools cwd id0 false true ext fs
      = ((fallback_download_matrix tools cwd gid gpfx gid ext fs).1,
         Ev.checkMatrix (matrixUrl gpfx gid)
           :: ((fallback_download_matrix tools cwd gid gpfx gid ext fs).2
               ++ [Ev.complete gid]))
    ∧ (∀ od fs', pyExists fs' (pyJoin od (matrixName gid)) = true →
        fallback_download_matrix tools cwd gid gpfx od false fs'
          = (fs', [Ev.matrixExists (pyJoin od (matrixName gid))]))
    ∧ (∀ od fs', pyExists fs' (pyJoin od (matrixName gid)) = false →
        fallback_download_matrix tools cwd gid gpfx od false fs'
          = (if tools.wgetOk (fallbackUrl gpfx gid) = true
             then pyJoin od (matrixName gid) :: fs' else fs',
             [Ev.wgetFetch (fallbackUrl gpfx gid) (pyJoin od (matrixName gid))]))
    ∧ (∀ od fs', fallback_download_matrix tools cwd gid gpfx od true fs'
        = ((extract_file tools cwd (pyJoin od (matrixName gid))
              (fallback_download_matrix tools cwd gid gpfx od false fs').1).1,
           (fallback_download_matrix tools cwd gid gpfx od false fs').2
             ++ (extract_file tools cwd (pyJoin od (matrixName gid))
                   (fallback_download_matrix tools cwd gid gpfx od false fs').1).2)) := by
  subst hgid
  subst hpfx
  refine ⟨?_, ?_, ?_, ?_⟩
  · rcases hempty with h | h <;>
      simp [download_geo, hv, h]
  · intro od fs' h
    simp [fallback_download_matrix, h]
  · intro od fs' h
    by_cases hw : tools.wgetOk (fallbackUrl (geoBucket (pyUpper (pyStrip id0))) (pyUpper (pyStrip id0))) = true <;>
      simp [fallback_download_matrix, h, hw]
  · intro od fs'
    by_cases h : pyExists fs' (pyJoin od (matrixName (pyUpper (pyStrip id0)))) = true <;>
      by_cases hw : tools.wgetOk (fallbackUrl (geoBucket (pyUpper (pyStrip id0))) (pyUpper (pyStrip id0))) = true <;>
      simp [fallback_download_matrix, h, hw]

/-- A web oracle whose every listing page is empty, for the C7 witness. -/
def emptyWeb : Web := fun _ => some ⟨200, true, []⟩

/-- Witness for C7 at `GSE76275`: the matrix listing is empty, so the
matrix phase is exactly the fallback's effect. -/
theorem c7_matrix_fallback_witness :
    (validGeoId (pyUpper (pyStrip "GSE76275".data)) = true
     ∧ download_file_list emptyWeb
         (matrixUrl (geoBucket (pyUpper (pyStrip "GSE76275".data)))
           (pyUpper (pyStrip "GSE76275".data)))
         (some "series_matrix".data) = some [])
    ∧ download_geo emptyWeb net404 toolsAny ".".data "GSE76275".data false true false []
        = ((fallback_download_matrix toolsAny ".".data (pyUpper (pyStrip "GSE76275".data))
              (geoBucket (pyUpper (pyStrip "GSE76275".data)))
              (pyUpper (pyStrip "GSE76275".data)) false []).1,
           Ev.checkMatrix (matrixUrl (geoBucket (pyUpper (pyStrip "GSE76275".data)))
               (pyUpper (pyStrip "GSE76275".data)))
             :: ((fallback_download_matrix toolsAny ".".data (pyUpper (pyStrip "GSE76275".data))
                   (geoBucket (pyUpper (pyStrip "GSE76275".data)))
                   (pyUpper (pyStrip "GSE76275".data)) false []).2
                 ++ [Ev.complete (pyUpper (pyStrip "GSE76275".data))])) :=
  ⟨⟨by decide, by decide⟩,
   (c7_matrix_fallback emptyWeb net404 toolsAny ".".data "GSE76275".data false []
     (pyUpper (pyStrip "GSE76275".data))
     (geoBucket (pyUpper (pyStrip "GSE76275".data)))
     rfl rfl (by decide) (Or.inr (by decide))).1⟩

/-- Claim C8: a command line containing neither `--matrix` nor `--raw`
computes both download flags as true, and under those flags every valid
accession ID's run performs both the supplementary (raw) phase and the
matrix phase. -/
theorem c8_default_both (argv : List PyStr)
    (hm : argv.contains "--matrix".data = false)
    (hr : argv.contains "--raw".data = false)
    (web : Web) (net : Net) (tools : Tools) (cwd id0 : PyStr)
    (ext : Bool) (fs : FS)
    (hv : validGeoId (pyUpper (pyStrip id0)) = true) :
    downloadRawFlag argv = true
    ∧ downloadMatrixFlag argv = true
    ∧ Ev.checkSuppl (supplUrl (geoBucket (pyUpper (pyStrip id0))) (pyUpper (pyStrip id0)))
        ∈ (download_geo web net tools cwd id0 (downloadRawFlag argv)
            (downloadMatrixFlag argv) ext fs).2
    ∧ Ev.checkMatrix (matrixUrl (geoBucket (pyUpper (pyStrip id0))) (pyUpper (pyStrip id0)))
        ∈ (download_geo web net tools cwd id0 (downloadRawFlag argv)
            (downloadMatrixFlag argv) ext fs).2 := by
  have hm' : "--matrix".data ∉ argv := by simpa using hm
  have hr' : "--raw".data ∉ argv := by simpa using hr
  have hraw : downloadRawFlag argv = true := by
    simp [downloadRawFlag, hm', hr']
  have hmat : downloadMatrixFlag argv = true := by
    simp [downloadMatrixFlag, hm', hr']
  rw [hraw, hmat]
  refine ⟨rfl, rfl, ?_, ?_⟩ <;>
    simp [download_geo, hv]

/-- Witness for C8: the command line `downloadgeo GSE76275` (no flags)
fetches both phases of `GSE76275`. -/
theorem c8_default_both_witness :
    (["GSE76275".data].contains "--matrix".data = false
     ∧ ["GSE76275".data].contains "--raw".data = false
     ∧ validGeoId (pyUpper (pyStrip "GSE76275".data)) = true)
    ∧ downloadRawFlag ["GSE76275".data] = true
    ∧ downloadMatrixFlag ["GSE76275".data] = true :=
  ⟨⟨by decide, by decide, by decide⟩,
   (c8_default_both ["GSE76275".data] (by decide) (by decide) emptyWeb net404
     toolsAny ".".data "GSE76275".data false [] (by decide)).1,
   (c8_default_both ["GSE76275".data] (by decide) (by decide) emptyWeb net404
     toolsAny ".".data "GSE76275".data false [] (by decide)).2.1⟩
